import Mathlib

/-!
Verification of the `wiki-go` markdown rendering core
(`internal/utils/markdown.go`) against its specification.

The file shallowly embeds the rendering pipeline: pure Go helper functions
from the standard library (`strings`, `path/filepath`) and goldmark's
`util.EscapeHTML` are modelled as Lean functions on `String`; the external
collaborators of the pipeline (frontmatter parsing, goldext preprocessors,
layout renderers, the goldmark conversion engine, placeholder restoration)
are abstracted into an environment record `Env`, and
`RenderMarkdownWithPath` is translated line by line against that
environment.  A small event trace records which engine calls the pipeline
makes, so that non-invocation claims can be stated.  All string helpers
are written over `List Char` so that concrete instances reduce inside the
kernel.
-/

namespace WikiGo

/-- Models Go `strings.HasPrefix(s, pre)` (the general-purpose prefix test
used by `renderLink`); over characters, which coincides with Go's byte
test for the ASCII literals occurring in the source. -/
def startsWithL (s pre : String) : Bool := List.isPrefixOf pre.toList s.toList

/-- Models Go `strings.HasSuffix(s, suf)`. -/
def endsWithL (s suf : String) : Bool := List.isPrefixOf suf.toList.reverse s.toList.reverse

/-- Models Go `strings.ToLower`; `Char.toLower` lower-cases ASCII letters,
which is all the comparison literals in the source need. -/
def toLowerL (s : String) : String := String.mk (s.toList.map Char.toLower)

/-- Drops the first `n` characters of `s`; for the ASCII prefixes used in
the source this coincides with removing `n` bytes. -/
def dropL (s : String) (n : Nat) : String := String.mk (s.toList.drop n)

/-- Character length of `s`; for ASCII strings this is Go's `len`. -/
def lengthL (s : String) : Nat := s.toList.length

/-- Models Go `strings.TrimPrefix(s, pre)`: removes `pre` from the start of
`s` when it is literally present (case-sensitively), otherwise returns `s`
unchanged. -/
def trimPrefixStr (s pre : String) : String :=
  if startsWithL s pre then dropL s (lengthL pre) else s

/-- Models Go `path/filepath.Dir` for slash-separated paths containing no
redundant separators and no `.`/`..` elements (the cases where the
trailing `Clean` call inside `Dir` would rewrite further): everything
before the last `/`, with `.` for slash-free paths and `/` when the only
slash is leading. -/
def filepathDir (p : String) : String :=
  let pre := (p.toList.reverse.dropWhile (fun c => c ≠ '/')).reverse
  match pre with
  | [] => "."
  | ['/'] => "/"
  | cs => String.mk cs.dropLast

/-- Models Go `path/filepath.Base` for nonempty slash-separated paths with
no trailing slash: the last path element, everything after the final `/`. -/
def filepathBase (p : String) : String :=
  String.mk ((p.toList.reverse.takeWhile (fun c => c ≠ '/')).reverse)

/-- Models Go `path/filepath.Rel(base, targ)` for cleaned relative
slash-separated paths where the target lies lexically under the base
(`Rel` of other shapes either errors or computes `..` segments; those
shapes are modelled as `none`, which sends `RenderMarkdownFile` into its
documented fallback). -/
def filepathRel (base targ : String) : Option String :=
  if targ = base then some "."
  else if startsWithL targ (base ++ "/") then some (dropL targ (lengthL base + 1))
  else none

/-- Models Go `strings.ReplaceAll(s, "\\", "/")`, the separator
normalization in `RenderMarkdownFile`: backslash is a single character, so
this is a character map. -/
def replaceBackslashes (s : String) : String :=
  String.mk (s.toList.map (fun c => if c = '\\' then '/' else c))

/-- Models goldmark `util.EscapeHTML`: replaces the four HTML-special
characters by their entities and leaves every other character alone. -/
def escapeHTML (s : String) : String :=
  s.toList.foldl
    (fun acc c =>
      acc ++ (if c = '&' then "&amp;"
              else if c = '<' then "&lt;"
              else if c = '>' then "&gt;"
              else if c = '"' then "&quot;"
              else String.mk [c])) ""

/-- Embeds the `entering` branch of `pdfLinkRenderer.renderLink`
(markdown.go lines 53-71).  The goldmark engine hands the renderer the
link node's destination and collected text; this function is the exact
string the renderer writes for the node.  Lower-casing applies only to the
compared copy; `strings.TrimPrefix` runs on the original destination. -/
def renderLinkEnter (destination text : String) : String :=
  let destinationLower := toLowerL destination
  if startsWithL destinationLower "/api/files/" && endsWithL destinationLower ".pdf" then
    let destination := trimPrefixStr destination "/api/files"
    "<a href=\"" ++ escapeHTML (filepathDir destination) ++ "?mode=pdf&file="
      ++ filepathBase destination ++ "\">" ++ text ++ "</a>"
  else
    "<a href=\"" ++ escapeHTML destination ++ "\" target=\"_blank\">" ++ text ++ "</a>"

/-- Embeds the `!entering` branch of `renderLink` (lines 45-51): the
renderer closes the anchor it opened. -/
def renderLinkExit : String := "</a>"

/-- The metadata record produced by `frontmatter.Parse`; this core only
reads its `Layout` field. -/
structure Metadata where
  layout : String
  deriving Repr, DecidableEq

/-- Result of `frontmatter.Parse(md)`: the metadata, the body with
frontmatter removed, and whether frontmatter was present. -/
structure ParseResult where
  metadata : Metadata
  content : String
  hasFrontmatter : Bool

/-- Engine calls made by the pipeline at top level, recorded so that
non-invocation properties can be stated: the goldmark conversion and the
two placeholder-restoration passes, each with the input it received. -/
inductive Event where
  | convertCall (input : String)
  | mermaidRestore (input : String)
  | directionRestore (input : String)
  deriving Repr, DecidableEq

/-- External collaborators of `RenderMarkdownWithPath`, abstracted: the
frontmatter parser, the goldext preprocessor registry (entries may be
nil), the two layout renderers, `goldext.ProcessMarkdown`, the goldmark
conversion (an `Except` capturing `Convert`'s error return), and the two
restoration passes of the placeholder subsystem. -/
structure Env where
  parse : String → ParseResult
  registeredPreprocessors : List (Option (String → String → String))
  renderKanbanWithProcessors :
    String → List (String → String → String) → List (String → String) → String
  renderLinks : String → Except String String
  processMarkdown : String → String → String
  convert : String → Except String String
  restoreMermaidBlocks : String → String
  restoreDirectionBlocks : String → String

/-- Embeds the preprocessor-wrapping loop of the kanban branch
(lines 122-136): each non-nil registered preprocessor is wrapped in a
closure that ignores the passed path and uses the captured `docPath`. -/
def kanbanPreprocessors (env : Env) (docPath : String) :
    List (String → String → String) :=
  (env.registeredPreprocessors.filterMap id).map
    (fun p => fun md _ => p md docPath)

/-- Embeds the post-processor list of the kanban branch (lines 139-143):
a single function restoring mermaid blocks and then direction blocks. -/
def kanbanPostProcessors (env : Env) : List (String → String) :=
  [fun html => env.restoreDirectionBlocks (env.restoreMermaidBlocks html)]

/-- Embeds the tail of `RenderMarkdownWithPath` (lines 165-213): the
default pipeline.  Preprocessing, goldmark conversion (an error becomes a
visible fragment and returns immediately), and on success the two
restoration passes in source order.  The second component records the
engine calls made. -/
def defaultPipelineT (env : Env) (md docPath : String) : String × List Event :=
  let md := env.processMarkdown md docPath
  match env.convert md with
  | Except.error e =>
      ("<p>Error rendering markdown with Goldmark: " ++ e ++ "</p>",
       [Event.convertCall md])
  | Except.ok buf =>
      let htmlResult := env.restoreMermaidBlocks buf
      let htmlResult2 := env.restoreDirectionBlocks htmlResult
      (htmlResult2,
       [Event.convertCall md, Event.mermaidRestore buf,
        Event.directionRestore htmlResult])

/-- Embeds `RenderMarkdownWithPath` (lines 115-213) with its engine-call
trace.  Branches in source order: kanban layout, links layout (with
fallback to the default pipeline on failure, where the Go code sets
`md = contentWithoutFrontmatter` and falls through the later
`if hasFrontmatter` reassignment, which is then a no-op), then the default
pipeline on the body with frontmatter stripped when present. -/
def RenderMarkdownWithPathT (env : Env) (md docPath : String) :
    String × List Event :=
  let pr := env.parse md
  if pr.hasFrontmatter ∧ pr.metadata.layout = "kanban" then
    (env.renderKanbanWithProcessors pr.content
       (kanbanPreprocessors env docPath) (kanbanPostProcessors env), [])
  else if pr.hasFrontmatter ∧ pr.metadata.layout = "links" then
    match env.renderLinks pr.content with
    | Except.ok linksHTML => (linksHTML, [])
    | Except.error _ => defaultPipelineT env pr.content docPath
  else
    let md1 := if pr.hasFrontmatter then pr.content else md
    defaultPipelineT env md1 docPath

/-- The HTML output of `RenderMarkdownWithPath`, forgetting the trace. -/
def RenderMarkdownWithPath (env : Env) (md docPath : String) : String :=
  (RenderMarkdownWithPathT env md docPath).1

/-- Embeds the document-path derivation of `RenderMarkdownFile`
(lines 92-103): the file's directory, relativized against the content
root `filepath.Join("data", "documents")` (falling back to the bare
directory name when relativization fails), separators normalized. -/
def deriveDocPath (filePath : String) : String :=
  let docDir := filepathDir filePath
  let relPath :=
    match filepathRel "data/documents" docDir with
    | some r => r
    | none => filepathBase docDir
  replaceBackslashes relPath

/-- Embeds `RenderMarkdownFile` (lines 85-107) over an abstract file
reader standing for `os.ReadFile`: a read error is returned as-is; a
successful read is rendered through the path-aware entry with the derived
document path. -/
def RenderMarkdownFile (env : Env)
    (readFileFn : String → Except String String) (filePath : String) :
    Except String String :=
  match readFileFn filePath with
  | Except.error e => Except.error e
  | Except.ok mdContent =>
      Except.ok (RenderMarkdownWithPath env mdContent (deriveDocPath filePath))

/-- Embeds `RenderMarkdown` (lines 110-112): the path-free variant binds
the document path to the empty string. -/
def RenderMarkdown (env : Env) (md : String) : String :=
  RenderMarkdownWithPath env md ""

end WikiGo

namespace WikiGo

/-- Concrete environment whose frontmatter parser reports the kanban
layout on every document; used to instantiate hypotheses of the layout
dispatch theorems. -/
def envKanban : Env where
  parse := fun md => { metadata := { layout := "kanban" }, content := md, hasFrontmatter := true }
  registeredPreprocessors := []
  renderKanbanWithProcessors := fun body _ _ => "K:" ++ body
  renderLinks := fun body => Except.ok body
  processMarkdown := fun md _ => md
  convert := fun md => Except.ok md
  restoreMermaidBlocks := fun s => s
  restoreDirectionBlocks := fun s => s

/-- Concrete environment whose frontmatter parser reports the links
layout and whose link-list renderer always fails. -/
def envLinksErr : Env where
  parse := fun md => { metadata := { layout := "links" }, content := md, hasFrontmatter := true }
  registeredPreprocessors := []
  renderKanbanWithProcessors := fun body _ _ => body
  renderLinks := fun _ => Except.error "bad"
  processMarkdown := fun md _ => "P:" ++ md
  convert := fun md => Except.ok ("C:" ++ md)
  restoreMermaidBlocks := fun s => "M:" ++ s
  restoreDirectionBlocks := fun s => "D:" ++ s

/-- Concrete environment whose pipeline stages tag their output, so the
order in which the stages ran is visible in the final string. -/
def envStages : Env where
  parse := fun md => { metadata := { layout := "" }, content := md, hasFrontmatter := false }
  registeredPreprocessors := []
  renderKanbanWithProcessors := fun body _ _ => body
  renderLinks := fun body => Except.ok body
  processMarkdown := fun md _ => md
  convert := fun md => Except.ok ("C:" ++ md)
  restoreMermaidBlocks := fun s => "M:" ++ s
  restoreDirectionBlocks := fun s => "D:" ++ s

/-- Concrete environment whose goldmark conversion step always fails. -/
def envConvertErr : Env where
  parse := fun md => { metadata := { layout := "" }, content := md, hasFrontmatter := false }
  registeredPreprocessors := []
  renderKanbanWithProcessors := fun body _ _ => body
  renderLinks := fun body => Except.ok body
  processMarkdown := fun md _ => md
  convert := fun _ => Except.error "boom"
  restoreMermaidBlocks := fun s => "M:" ++ s
  restoreDirectionBlocks := fun s => "D:" ++ s

/-- Concrete environment where every external collaborator is the
identity-like stage; used for the file-entry error-policy witness. -/
def envPlain : Env where
  parse := fun md => { metadata := { layout := "" }, content := md, hasFrontmatter := false }
  registeredPreprocessors := []
  renderKanbanWithProcessors := fun body _ _ => body
  renderLinks := fun body => Except.ok body
  processMarkdown := fun md _ => md
  convert := fun md => Except.ok md
  restoreMermaidBlocks := fun s => s
  restoreDirectionBlocks := fun s => s

/-- C1: for the document `[x](/api/files/foo/bar.PDF)` the custom link
renderer (which receives destination `/api/files/foo/bar.PDF` and text
`x` from the engine's link node) emits an anchor whose href is
`/foo?mode=pdf&file=bar.PDF` — the `/api/files` prefix stripped, the
directory kept, the viewer query string plus base name appended — and
whose visible text is `x`. -/
theorem renderLink_pdf_viewer_rewrite :
    renderLinkEnter "/api/files/foo/bar.PDF" "x" =
      "<a href=\"/foo?mode=pdf&file=bar.PDF\">x</a>" := by decide

/-- C8: for the document `[x](https://example.com/doc.pdf)`, whose
destination does not start with `/api/files/`, the custom link renderer
emits the standard externally-targeted anchor with the destination
HTML-escaped (here unchanged by escaping). -/
theorem renderLink_standard_anchor :
    renderLinkEnter "https://example.com/doc.pdf" "x" =
      "<a href=\"https://example.com/doc.pdf\" target=\"_blank\">x</a>" := by decide

/-- C2 counterexample: for the destination `/API/Files/foo/bar.pdf` the
case-insensitive branch test passes, but `strings.TrimPrefix` is
case-sensitive, so the file-serving prefix is NOT stripped: the emitted
href keeps `/API/Files/foo`, refuting the claim that stripping succeeds
regardless of the letter case of the prefix. -/
theorem renderLink_mixed_case_not_stripped :
    renderLinkEnter "/API/Files/foo/bar.pdf" "x" =
      "<a href=\"/API/Files/foo?mode=pdf&file=bar.pdf\">x</a>" ∧
    renderLinkEnter "/API/Files/foo/bar.pdf" "x" ≠
      "<a href=\"/foo?mode=pdf&file=bar.pdf\">x</a>" := by decide

/-- C2 amended: the viewer rewrite branch is entered by case-insensitive
comparison, but the prefix strip itself is case-sensitive; whenever the
destination does not literally start with lowercase `/api/files`, the
viewer-route href is built from the unstripped destination. -/
theorem renderLink_strip_case_sensitive (dest text : String)
    (hp : startsWithL (toLowerL dest) "/api/files/" = true)
    (hs : endsWithL (toLowerL dest) ".pdf" = true)
    (hnot : startsWithL dest "/api/files" = false) :
    renderLinkEnter dest text =
      "<a href=\"" ++ escapeHTML (filepathDir dest) ++ "?mode=pdf&file="
        ++ filepathBase dest ++ "\">" ++ text ++ "</a>" := by
  unfold renderLinkEnter trimPrefixStr
  simp [hp, hs, hnot]

/-- C2 witness: the amended statement instantiated at the mixed-case
destination `/API/Files/foo/bar.pdf`. -/
theorem renderLink_strip_case_sensitive_witness :
    renderLinkEnter "/API/Files/foo/bar.pdf" "x" =
      "<a href=\"" ++ escapeHTML (filepathDir "/API/Files/foo/bar.pdf") ++ "?mode=pdf&file="
        ++ filepathBase "/API/Files/foo/bar.pdf" ++ "\">" ++ "x" ++ "</a>" :=
  renderLink_strip_case_sensitive "/API/Files/foo/bar.pdf" "x"
    (by decide) (by decide) (by decide)

/-- C3 counterexample: for the file `data/documents/team/page.md` the
document path handed to the path-aware renderer is not `team/page` — the
code relativizes the file's DIRECTORY (`data/documents/team`) against the
content root, yielding `team`. -/
theorem deriveDocPath_not_team_page :
    deriveDocPath "data/documents/team/page.md" ≠ "team/page" := by decide

/-- C3 amended: the file-based entry derives the document path from the
file's containing directory, so `data/documents/team/page.md` yields the
document path `team` (the directory relative to the two-level content
root, separators normalized). -/
theorem deriveDocPath_team :
    deriveDocPath "data/documents/team/page.md" = "team" := by decide

/-- C4: whenever frontmatter is present and its layout is `kanban`, the
render function returns the board renderer's output on the body with
frontmatter removed (with the wrapped preprocessors and the restoration
post-processors), and the default pipeline's goldmark conversion is never
invoked on the top-level body — the engine-call trace is empty. -/
theorem kanban_layout_skips_engine (env : Env) (md docPath : String)
    (hf : (env.parse md).hasFrontmatter = true)
    (hl : (env.parse md).metadata.layout = "kanban") :
    RenderMarkdownWithPathT env md docPath =
      (env.renderKanbanWithProcessors (env.parse md).content
        (kanbanPreprocessors env docPath) (kanbanPostProcessors env), []) ∧
    ∀ s, Event.convertCall s ∉ (RenderMarkdownWithPathT env md docPath).2 := by
  refine ⟨?_, ?_⟩ <;>
  · unfold RenderMarkdownWithPathT
    simp [hf, hl]

/-- C4 witness: in the concrete kanban environment the pipeline returns
the board renderer's output on the body, with an empty engine trace. -/
theorem kanban_layout_skips_engine_witness :
    RenderMarkdownWithPathT envKanban "body" "p" = ("K:body", []) :=
  (kanban_layout_skips_engine envKanban "body" "p" rfl rfl).1

/-- C5: whenever frontmatter is present and its layout is `links`, a
failure of the link-list renderer makes the result equal to the default
pipeline applied to the body with frontmatter removed (the failure is
swallowed; the result type carries no error), while a success is returned
directly as the output HTML. -/
theorem links_layout_failure_falls_back (env : Env) (md docPath : String)
    (hf : (env.parse md).hasFrontmatter = true)
    (hl : (env.parse md).metadata.layout = "links") :
    (∀ e, env.renderLinks (env.parse md).content = Except.error e →
        RenderMarkdownWithPathT env md docPath =
          defaultPipelineT env (env.parse md).content docPath) ∧
    (∀ h, env.renderLinks (env.parse md).content = Except.ok h →
        RenderMarkdownWithPath env md docPath = h) := by
  constructor
  · intro e he
    unfold RenderMarkdownWithPathT
    simp [hf, hl, he]
  · intro h he
    unfold RenderMarkdownWithPath RenderMarkdownWithPathT
    simp [hf, hl, he]

/-- C5 witness: in the concrete links environment whose link-list
renderer fails, the pipeline result equals the default pipeline on the
body. -/
theorem links_layout_failure_falls_back_witness :
    RenderMarkdownWithPathT envLinksErr "body" "p" =
      defaultPipelineT envLinksErr "body" "p" :=
  (links_layout_failure_falls_back envLinksErr "body" "p" rfl rfl).1 "bad" rfl

/-- C6: in the default pipeline a successful conversion is post-processed
by the mermaid (diagram) restoration first and the direction restoration
second — the output is the direction-restore composed after
diagram-restore — and the kanban post-processing chain is the single
function applying the two restorations in that same order. -/
theorem restoration_diagram_before_direction (env : Env) (md docPath buf : String) :
    (env.convert (env.processMarkdown md docPath) = Except.ok buf →
      (defaultPipelineT env md docPath).1 =
        env.restoreDirectionBlocks (env.restoreMermaidBlocks buf)) ∧
    kanbanPostProcessors env =
      [fun html => env.restoreDirectionBlocks (env.restoreMermaidBlocks html)] := by
  constructor
  · intro hc
    unfold defaultPipelineT
    simp [hc]
  · rfl

/-- C6 witness: with tagged stages, converting `x` yields `C:x` and the
pipeline output is the direction tag outside the mermaid tag. -/
theorem restoration_diagram_before_direction_witness :
    (defaultPipelineT envStages "x" "p").1 =
      envStages.restoreDirectionBlocks (envStages.restoreMermaidBlocks "C:x") :=
  (restoration_diagram_before_direction envStages "x" "p" "C:x").1 rfl

/-- C7: when the goldmark conversion fails, the render function returns
the `<p>` fragment whose text contains "Error rendering markdown"; no
error value reaches the caller (the result type is a plain string). -/
theorem convert_failure_error_fragment (env : Env) (md docPath e : String)
    (hf : (env.parse md).hasFrontmatter = false)
    (he : env.convert (env.processMarkdown md docPath) = Except.error e) :
    RenderMarkdownWithPath env md docPath =
      "<p>Error rendering markdown with Goldmark: " ++ e ++ "</p>" ∧
    ∃ s t, (RenderMarkdownWithPath env md docPath).toList =
      s ++ ("Error rendering markdown".toList ++ t) := by
  have hmain : RenderMarkdownWithPath env md docPath =
      "<p>Error rendering markdown with Goldmark: " ++ e ++ "</p>" := by
    unfold RenderMarkdownWithPath RenderMarkdownWithPathT defaultPipelineT
    simp [hf, he]
  refine ⟨hmain, "<p>".toList, (" with Goldmark: " ++ e ++ "</p>").toList, ?_⟩
  rw [hmain]
  simp [String.data_append]

/-- C7 witness: in the concrete environment whose conversion fails with
"boom", the output is the visible error fragment. -/
theorem convert_failure_error_fragment_witness :
    RenderMarkdownWithPath envConvertErr "x" "p" =
      "<p>Error rendering markdown with Goldmark: " ++ "boom" ++ "</p>" :=
  (convert_failure_error_fragment envConvertErr "x" "p" "boom" rfl rfl).1

/-- C9: the path-aware render function is total — a successful file read
always produces an `ok` HTML result through the file-based entry — and
the only hard failure reachable through the file-based entry is the file
read error, returned to the caller unchanged before any rendering. -/
theorem render_total_read_error_propagated (env : Env)
    (readFileFn : String → Except String String) (filePath : String) :
    (∀ e, readFileFn filePath = Except.error e →
        RenderMarkdownFile env readFileFn filePath = Except.error e) ∧
    (∀ c, readFileFn filePath = Except.ok c →
        RenderMarkdownFile env readFileFn filePath =
          Except.ok (RenderMarkdownWithPath env c (deriveDocPath filePath))) := by
  constructor
  · intro e he
    unfold RenderMarkdownFile
    simp [he]
  · intro c hc
    unfold RenderMarkdownFile
    simp [hc]

/-- C9 witness: a reader failing with "io" propagates "io" unchanged
through the file-based entry. -/
theorem render_total_read_error_propagated_witness :
    RenderMarkdownFile envPlain (fun _ => Except.error "io") "data/documents/team/page.md" =
      Except.error "io" :=
  (render_total_read_error_propagated envPlain (fun _ => Except.error "io")
    "data/documents/team/page.md").1 "io" rfl

/-- C10: when the conversion fails, the error fragment is returned
directly: the engine-call trace records only the conversion call, and
neither the mermaid restoration nor the direction restoration appears in
it — placeholders minted during preprocessing are never restored on the
error path. -/
theorem convert_failure_skips_restoration (env : Env) (md docPath e : String)
    (hf : (env.parse md).hasFrontmatter = false)
    (he : env.convert (env.processMarkdown md docPath) = Except.error e) :
    RenderMarkdownWithPathT env md docPath =
      ("<p>Error rendering markdown with Goldmark: " ++ e ++ "</p>",
        [Event.convertCall (env.processMarkdown md docPath)]) ∧
    ∀ s, Event.mermaidRestore s ∉ (RenderMarkdownWithPathT env md docPath).2 ∧
         Event.directionRestore s ∉ (RenderMarkdownWithPathT env md docPath).2 := by
  refine ⟨?_, ?_⟩ <;>
  · unfold RenderMarkdownWithPathT defaultPipelineT
    simp [hf, he]

/-- C10 witness: in the failing-conversion environment the trace holds
exactly the conversion call and the output is the error fragment. -/
theorem convert_failure_skips_restoration_witness :
    RenderMarkdownWithPathT envConvertErr "x" "p" =
      ("<p>Error rendering markdown with Goldmark: " ++ "boom" ++ "</p>",
        [Event.convertCall "x"]) :=
  (convert_failure_skips_restoration envConvertErr "x" "p" "boom" rfl rfl).1

end WikiGo
